import Mathlib

/-!
# Verification of `crossterm-winapi` input-record decoding

Shallow embedding of `src/structs/input.rs`: the flag decoders
(`ButtonState`, `ControlKeyState`, `EventFlags`), the leaf event decoders
(`KeyEventRecord`, `MouseEvent`, `WindowBufferSizeRecord`, `FocusEventRecord`,
`MenuEventRecord`) and the top-level dispatcher (`From<INPUT_RECORD> for
InputRecord`).

Machine integers are modelled as `Nat` (unsigned) and `Int` (signed) with
explicit range reasoning where Rust performs an `as` cast.  Code that panics
(the `panic!` on an unrecognized discriminant, and the two `.unwrap()` calls
on the screen-buffer query in the window-buffer-size arm) is embedded as an
`Except` error result.  The external screen-buffer collaborator (the
`ScreenBuffer`/`Coord` types live outside the decoding module) is passed in as
an explicit query-result parameter.
-/

namespace CrosstermWinapi

/-- Modelled from the spec: the shared cell-coordinate type (`Coord`, a
supporting value type outside the decoding module): x and y positions in
character cells, signed 16-bit values. -/
structure Coord where
  x : Int
  y : Int
deriving Repr, DecidableEq

/-- Modelled from the spec: the result of the external screen-buffer
collaborator query "get current terminal size in character cells, returning
width and height" (`ScreenBuffer::current().info().terminal_size()`). -/
structure Size where
  width : Int
  height : Int
deriving Repr, DecidableEq

/-- The raw Windows `COORD` struct: two signed 16-bit fields. -/
structure COORD where
  X : Int
  Y : Int
deriving Repr, DecidableEq

/-- Modelled from the spec: conversion of a raw `COORD` into the shared
coordinate type is a field-by-field copy. -/
def Coord.fromRaw (c : COORD) : Coord :=
  { x := c.X, y := c.Y }

/-! Constants imported from the `windows` crate
(`windows::Win32::System::Console`). -/

def FROM_LEFT_1ST_BUTTON_PRESSED : Nat := 0x0001
def RIGHTMOST_BUTTON_PRESSED : Nat := 0x0002
def FROM_LEFT_2ND_BUTTON_PRESSED : Nat := 0x0004
def FROM_LEFT_3RD_BUTTON_PRESSED : Nat := 0x0008
def FROM_LEFT_4TH_BUTTON_PRESSED : Nat := 0x0010
def KEY_EVENT : Nat := 0x0001
def MOUSE_EVENT : Nat := 0x0002
def WINDOW_BUFFER_SIZE_EVENT : Nat := 0x0004
def MENU_EVENT : Nat := 0x0008
def FOCUS_EVENT : Nat := 0x0010

/-- Rust `v as i32` applied to a `u32` value `v < 2^32`. -/
def i32ofU32 (v : Nat) : Int :=
  if v < 2 ^ 31 then (v : Int) else (v : Int) - 2 ^ 32

/-- Rust `s as u32` applied to an `i32` value. -/
def u32ofI32 (s : Int) : Nat :=
  (s % 2 ^ 32).toNat

/-- The state of the control keys: a raw `u32` bitmask
(`pub struct ControlKeyState(u32)`). -/
structure ControlKeyState where
  raw : Nat
deriving Repr, DecidableEq

/-- `ControlKeyState::has_state`: `(state & self.0) != 0`. -/
def ControlKeyState.has_state (c : ControlKeyState) (state : Nat) : Bool :=
  state &&& c.raw != 0

/-- The status of the mouse buttons, stored as a signed 32-bit value
(`pub struct ButtonState { state: i32 }`). -/
structure ButtonState where
  state : Int
deriving Repr, DecidableEq

/-- `impl From<u32> for ButtonState`: `let state = event as i32`. -/
def ButtonState.ofU32 (event : Nat) : ButtonState :=
  { state := i32ofU32 event }

/-- `ButtonState::release_button`: `self.state == 0`. -/
def ButtonState.release_button (b : ButtonState) : Bool :=
  b.state == 0

/-- `ButtonState::left_button`:
`self.state as u32 & FROM_LEFT_1ST_BUTTON_PRESSED != 0`. -/
def ButtonState.left_button (b : ButtonState) : Bool :=
  u32ofI32 b.state &&& FROM_LEFT_1ST_BUTTON_PRESSED != 0

/-- `ButtonState::right_button`: `self.state as u32 &
(RIGHTMOST_BUTTON_PRESSED | FROM_LEFT_3RD_BUTTON_PRESSED |
FROM_LEFT_4TH_BUTTON_PRESSED) != 0`. -/
def ButtonState.right_button (b : ButtonState) : Bool :=
  u32ofI32 b.state &&&
      (RIGHTMOST_BUTTON_PRESSED ||| FROM_LEFT_3RD_BUTTON_PRESSED |||
        FROM_LEFT_4TH_BUTTON_PRESSED) != 0

/-- `ButtonState::middle_button`:
`self.state as u32 & FROM_LEFT_2ND_BUTTON_PRESSED != 0`. -/
def ButtonState.middle_button (b : ButtonState) : Bool :=
  u32ofI32 b.state &&& FROM_LEFT_2ND_BUTTON_PRESSED != 0

/-- `ButtonState::scroll_down`: `self.state < 0`. -/
def ButtonState.scroll_down (b : ButtonState) : Bool :=
  b.state < 0

/-- `ButtonState::scroll_up`: `self.state > 0`. -/
def ButtonState.scroll_up (b : ButtonState) : Bool :=
  b.state > 0

/-- The type of mouse event (`pub enum EventFlags`). -/
inductive EventFlags where
  | PressOrRelease
  | DoubleClick
  | MouseHwheeled
  | MouseMoved
  | MouseWheeled
  | Unknown
deriving Repr, DecidableEq

/-- `impl From<u32> for EventFlags`, with the source's match-arm order
(`0x0000, 0x0002, 0x0008, 0x0001, 0x0004, _`). -/
def EventFlags.ofU32 (event : Nat) : EventFlags :=
  match event with
  | 0x0000 => .PressOrRelease
  | 0x0002 => .DoubleClick
  | 0x0008 => .MouseHwheeled
  | 0x0001 => .MouseMoved
  | 0x0004 => .MouseWheeled
  | _ => .Unknown

/-- The two-byte `uChar` union inside `KEY_EVENT_RECORD`, holding one UTF-16
code unit.  The union's storage is the raw 16-bit value; the `UnicodeChar` arm
reads all 16 bits, the `AsciiChar` arm reads only the low byte
(little-endian). -/
structure UCharUnion where
  bits : Nat
deriving Repr, DecidableEq

/-- The wide (UTF-16) arm of the `uChar` union: the full 16-bit value. -/
def UCharUnion.UnicodeChar (u : UCharUnion) : Nat :=
  u.bits

/-- The narrow arm of the `uChar` union: the low byte of the storage. -/
def UCharUnion.AsciiChar (u : UCharUnion) : Nat :=
  u.bits % 256

/-- The raw Windows `KEY_EVENT_RECORD`.  `bKeyDown` is a Windows `BOOL`
(a signed 32-bit integer, truthy when nonzero). -/
structure KEY_EVENT_RECORD where
  bKeyDown : Int
  wRepeatCount : Nat
  wVirtualKeyCode : Nat
  wVirtualScanCode : Nat
  uChar : UCharUnion
  dwControlKeyState : Nat
deriving Repr, DecidableEq

/-- The rusty keyboard input event (`pub struct KeyEventRecord`). -/
structure KeyEventRecord where
  key_down : Bool
  repeat_count : Nat
  virtual_key_code : Nat
  virtual_scan_code : Nat
  u_char : Nat
  control_key_state : ControlKeyState
deriving Repr, DecidableEq

/-- `KeyEventRecord::from_winapi`: verbatim field copies; the character is
read through the `UnicodeChar` (wide) arm of the union. -/
def KeyEventRecord.from_winapi (record : KEY_EVENT_RECORD) : KeyEventRecord :=
  { key_down := record.bKeyDown != 0
    repeat_count := record.wRepeatCount
    virtual_key_code := record.wVirtualKeyCode
    virtual_scan_code := record.wVirtualScanCode
    u_char := record.uChar.UnicodeChar
    control_key_state := ControlKeyState.mk record.dwControlKeyState }

/-- The raw Windows `MOUSE_EVENT_RECORD`. -/
structure MOUSE_EVENT_RECORD where
  dwMousePosition : COORD
  dwButtonState : Nat
  dwControlKeyState : Nat
  dwEventFlags : Nat
deriving Repr, DecidableEq

/-- The rusty mouse input event (`pub struct MouseEvent`). -/
structure MouseEvent where
  mouse_position : Coord
  button_state : ButtonState
  control_key_state : ControlKeyState
  event_flags : EventFlags
deriving Repr, DecidableEq

/-- `impl From<MOUSE_EVENT_RECORD> for MouseEvent`. -/
def MouseEvent.fromRaw (event : MOUSE_EVENT_RECORD) : MouseEvent :=
  { mouse_position := Coord.fromRaw event.dwMousePosition
    button_state := ButtonState.ofU32 event.dwButtonState
    control_key_state := ControlKeyState.mk event.dwControlKeyState
    event_flags := EventFlags.ofU32 event.dwEventFlags }

/-- The raw Windows `WINDOW_BUFFER_SIZE_RECORD`. -/
structure WINDOW_BUFFER_SIZE_RECORD where
  dwSize : COORD
deriving Repr, DecidableEq

/-- The rusty console screen buffer size record
(`pub struct WindowBufferSizeRecord`). -/
structure WindowBufferSizeRecord where
  size : Coord
deriving Repr, DecidableEq

/-- `impl From<WINDOW_BUFFER_SIZE_RECORD> for WindowBufferSizeRecord`:
copies the embedded `dwSize` verbatim; takes no collaborator query. -/
def WindowBufferSizeRecord.fromRaw (record : WINDOW_BUFFER_SIZE_RECORD) :
    WindowBufferSizeRecord :=
  { size := Coord.fromRaw record.dwSize }

/-- The raw Windows `FOCUS_EVENT_RECORD` (`bSetFocus` is a `BOOL`). -/
structure FOCUS_EVENT_RECORD where
  bSetFocus : Int
deriving Repr, DecidableEq

/-- The rusty focus event (`pub struct FocusEventRecord`). -/
structure FocusEventRecord where
  set_focus : Bool
deriving Repr, DecidableEq

/-- `impl From<FOCUS_EVENT_RECORD> for FocusEventRecord`. -/
def FocusEventRecord.fromRaw (record : FOCUS_EVENT_RECORD) : FocusEventRecord :=
  { set_focus := record.bSetFocus != 0 }

/-- The raw Windows `MENU_EVENT_RECORD`. -/
structure MENU_EVENT_RECORD where
  dwCommandId : Nat
deriving Repr, DecidableEq

/-- The rusty menu event (`pub struct MenuEventRecord`). -/
structure MenuEventRecord where
  command_id : Nat
deriving Repr, DecidableEq

/-- `impl From<MENU_EVENT_RECORD> for MenuEventRecord`. -/
def MenuEventRecord.fromRaw (record : MENU_EVENT_RECORD) : MenuEventRecord :=
  { command_id := record.dwCommandId }

/-- The `Event` union inside the raw `INPUT_RECORD`.  The union's storage can
be viewed through any of the five arms; the embedding carries every arm's
interpretation so the decoder's choice of which arm to read is explicit. -/
structure EVENT_UNION where
  KeyEvent : KEY_EVENT_RECORD
  MouseEvent : MOUSE_EVENT_RECORD
  WindowBufferSizeEvent : WINDOW_BUFFER_SIZE_RECORD
  FocusEvent : FOCUS_EVENT_RECORD
  MenuEvent : MENU_EVENT_RECORD
deriving Repr, DecidableEq

/-- The raw Windows `INPUT_RECORD`: a `u16` discriminant and an event
union. -/
structure INPUT_RECORD where
  EventType : Nat
  Event : EVENT_UNION
deriving Repr, DecidableEq

/-- The rusty input event (`pub enum InputRecord`). -/
inductive InputRecord where
  | KeyEvent (record : KeyEventRecord)
  | MouseEvent (event : MouseEvent)
  | WindowBufferSizeEvent (record : WindowBufferSizeRecord)
  | FocusEvent (record : FocusEventRecord)
  | MenuEvent (record : MenuEventRecord)
deriving Repr, DecidableEq

/-- Fatal decode outcomes embedded from the source's panics:
`unexpectedEventType` embeds `panic!("Unexpected INPUT_RECORD EventType: ..")`
in the dispatcher's default match arm, and `screenBufferQueryFailed` embeds
the `.unwrap()` panics on the failed screen-buffer collaborator query. -/
inductive DecodeError where
  | unexpectedEventType (code : Nat)
  | screenBufferQueryFailed
deriving Repr, DecidableEq

/-- `impl From<INPUT_RECORD> for InputRecord`: dispatch on `EventType` with
the source's match-arm order.  `screenQuery` is the result of the external
collaborator query `ScreenBuffer::current().info().terminal_size()` made by
the window-buffer-size arm (`none` when either step fails, in which case the
source's `.unwrap()` panics — embedded as an error result).  In that arm the
source first builds the record from the raw payload, then overwrites
`buffer.size.y` with the queried height and `buffer.size.x` with the queried
width. -/
def InputRecord.decode (screenQuery : Option Size) (record : INPUT_RECORD) :
    Except DecodeError InputRecord :=
  if record.EventType = KEY_EVENT then
    .ok (.KeyEvent (KeyEventRecord.from_winapi record.Event.KeyEvent))
  else if record.EventType = MOUSE_EVENT then
    .ok (.MouseEvent (MouseEvent.fromRaw record.Event.MouseEvent))
  else if record.EventType = WINDOW_BUFFER_SIZE_EVENT then
    match screenQuery with
    | none => .error .screenBufferQueryFailed
    | some screen_size =>
      let buffer := WindowBufferSizeRecord.fromRaw record.Event.WindowBufferSizeEvent
      let buffer := { buffer with size := { buffer.size with y := screen_size.height } }
      let buffer := { buffer with size := { buffer.size with x := screen_size.width } }
      .ok (.WindowBufferSizeEvent buffer)
  else if record.EventType = FOCUS_EVENT then
    .ok (.FocusEvent (FocusEventRecord.fromRaw record.Event.FocusEvent))
  else if record.EventType = MENU_EVENT then
    .ok (.MenuEvent (MenuEventRecord.fromRaw record.Event.MenuEvent))
  else
    .error (.unexpectedEventType record.EventType)

/-! ## Helper lemmas about bit masks and casts -/

lemma land_ne_zero_iff (v m : Nat) :
    v &&& m ≠ 0 ↔ ∃ i, v.testBit i = true ∧ m.testBit i = true := by
  constructor
  · intro h
    by_contra hc
    push_neg at hc
    apply h
    apply Nat.zero_of_testBit_eq_false
    intro i
    rw [Nat.testBit_land]
    cases hv : v.testBit i with
    | false => simp
    | true => simp [hc i hv]
  · rintro ⟨i, hv, hm⟩ h
    have h2 := congrArg (fun n => n.testBit i) h
    simp [Nat.testBit_land, hv, hm] at h2

lemma exists_testBit_two_pow_iff (v k : Nat) :
    (∃ i, v.testBit i = true ∧ (2 ^ k : Nat).testBit i = true) ↔
      v.testBit k = true := by
  constructor
  · rintro ⟨i, hv, hm⟩
    rcases eq_or_ne k i with h | h
    · rw [h]; exact hv
    · rw [Nat.testBit_two_pow_of_ne h] at hm
      exact absurd hm (by simp)
  · intro h
    exact ⟨k, h, Nat.testBit_two_pow_self⟩

lemma exists_testBit_26_iff (v : Nat) :
    (∃ i, v.testBit i = true ∧ (26 : Nat).testBit i = true) ↔
      (v.testBit 1 = true ∨ v.testBit 3 = true ∨ v.testBit 4 = true) := by
  constructor
  · rintro ⟨i, hv, hm⟩
    have hi : i < 5 := by
      by_contra hge
      push_neg at hge
      have h26 : (26 : Nat) < 2 ^ i :=
        lt_of_lt_of_le (by norm_num) (Nat.pow_le_pow_right (by norm_num) hge)
      rw [Nat.testBit_eq_false_of_lt h26] at hm
      exact absurd hm (by simp)
    interval_cases i
    · exact absurd hm (by decide)
    · exact Or.inl hv
    · exact absurd hm (by decide)
    · exact Or.inr (Or.inl hv)
    · exact Or.inr (Or.inr hv)
  · rintro (h | h | h)
    · exact ⟨1, h, by decide⟩
    · exact ⟨3, h, by decide⟩
    · exact ⟨4, h, by decide⟩

lemma u32ofI32_i32ofU32 (v : Nat) (hv : v < 2 ^ 32) :
    u32ofI32 (i32ofU32 v) = v := by
  unfold u32ofI32 i32ofU32
  split <;> omega

/-! ## Claim theorems -/

/-- C4: `EventFlags::from` is total over 32-bit values: 0 maps to
`PressOrRelease`, 1 to `MouseMoved`, 2 to `DoubleClick`, 4 to `MouseWheeled`,
8 to `MouseHwheeled`, and every other value maps to `Unknown`. -/
theorem eventFlags_ofU32_total (v : Nat) (hv : v < 2 ^ 32) :
    EventFlags.ofU32 0 = .PressOrRelease ∧ EventFlags.ofU32 1 = .MouseMoved ∧
      EventFlags.ofU32 2 = .DoubleClick ∧ EventFlags.ofU32 4 = .MouseWheeled ∧
      EventFlags.ofU32 8 = .MouseHwheeled ∧
      (v ≠ 0 → v ≠ 1 → v ≠ 2 → v ≠ 4 → v ≠ 8 →
        EventFlags.ofU32 v = .Unknown) := by
  refine ⟨rfl, rfl, rfl, rfl, rfl, ?_⟩
  intro h0 h1 h2 h4 h8
  unfold EventFlags.ofU32
  split <;> simp_all

/-- Witness for C4 at `v = 3`. -/
theorem eventFlags_ofU32_total_witness :
    ((3 : Nat) < 2 ^ 32) ∧ EventFlags.ofU32 3 = .Unknown :=
  ⟨by norm_num,
    (eventFlags_ofU32_total 3 (by norm_num)).2.2.2.2.2 (by decide) (by decide)
      (by decide) (by decide) (by decide)⟩

/-- C5: for every 32-bit value, `left_button` tests bit 0, `right_button`
tests bits 1, 3 and 4, and `middle_button` tests bit 2 — independently of the
sign of the stored signed value; in particular `ButtonState::from(0x0002)`
reports the right button. -/
theorem buttonState_bit_predicates (v : Nat) (hv : v < 2 ^ 32) :
    ((ButtonState.ofU32 v).left_button = true ↔ v.testBit 0 = true) ∧
      ((ButtonState.ofU32 v).right_button = true ↔
        (v.testBit 1 = true ∨ v.testBit 3 = true ∨ v.testBit 4 = true)) ∧
      ((ButtonState.ofU32 v).middle_button = true ↔ v.testBit 2 = true) ∧
      (ButtonState.ofU32 0x0002).right_button = true := by
  have hrt := u32ofI32_i32ofU32 v hv
  refine ⟨?_, ?_, ?_, by decide⟩
  · simp only [ButtonState.ofU32, ButtonState.left_button,
      FROM_LEFT_1ST_BUTTON_PRESSED, hrt, bne_iff_ne, ne_eq]
    rw [show (1 : Nat) = 2 ^ 0 by norm_num]
    rw [← ne_eq, land_ne_zero_iff, exists_testBit_two_pow_iff]
  · simp only [ButtonState.ofU32, ButtonState.right_button,
      RIGHTMOST_BUTTON_PRESSED, FROM_LEFT_3RD_BUTTON_PRESSED,
      FROM_LEFT_4TH_BUTTON_PRESSED, hrt, bne_iff_ne, ne_eq]
    rw [show ((2 : Nat) ||| 8 ||| 16) = 26 by decide]
    rw [← ne_eq, land_ne_zero_iff, exists_testBit_26_iff]
  · simp only [ButtonState.ofU32, ButtonState.middle_button,
      FROM_LEFT_2ND_BUTTON_PRESSED, hrt, bne_iff_ne, ne_eq]
    rw [show (4 : Nat) = 2 ^ 2 by norm_num]
    rw [← ne_eq, land_ne_zero_iff, exists_testBit_two_pow_iff]

/-- Witness for C5 at `v = 2`. -/
theorem buttonState_bit_predicates_witness :
    ((2 : Nat) < 2 ^ 32) ∧ (ButtonState.ofU32 2).right_button = true :=
  ⟨by norm_num,
    (buttonState_bit_predicates 2 (by norm_num)).2.1.mpr (Or.inl (by decide))⟩

/-- C7: `release_button` is true exactly at zero, and the two scroll
predicates are mutually exclusive and both false at zero. -/
theorem buttonState_release_scroll (v : Nat) (hv : v < 2 ^ 32) :
    ((ButtonState.ofU32 v).release_button = true ↔ v = 0) ∧
      ¬((ButtonState.ofU32 v).scroll_down = true ∧
        (ButtonState.ofU32 v).scroll_up = true) ∧
      (v = 0 → (ButtonState.ofU32 v).scroll_down = false ∧
        (ButtonState.ofU32 v).scroll_up = false) := by
  simp only [ButtonState.ofU32, ButtonState.release_button,
    ButtonState.scroll_down, ButtonState.scroll_up, beq_iff_eq,
    decide_eq_true_eq, decide_eq_false_iff_not, not_and, not_lt]
  unfold i32ofU32
  refine ⟨?_, ?_, ?_⟩ <;> split <;> omega

/-- Witness for C7 at `v = 0`. -/
theorem buttonState_release_scroll_witness :
    ((0 : Nat) < 2 ^ 32) ∧ ((ButtonState.ofU32 0).scroll_down = false ∧
      (ButtonState.ofU32 0).scroll_up = false) :=
  ⟨by norm_num, (buttonState_release_scroll 0 (by norm_num)).2.2 rfl⟩

/-- C8: `has_state` returns true exactly when the query mask intersects the
stored raw bitmask; in particular `ControlKeyState(0x0010)` has state
`0x0010` and does not have state `0x0001`. -/
theorem controlKeyState_has_state_iff (r m : Nat) :
    ((ControlKeyState.mk r).has_state m = true ↔ m &&& r ≠ 0) ∧
      (ControlKeyState.mk 0x0010).has_state 0x0010 = true ∧
      (ControlKeyState.mk 0x0010).has_state 0x0001 = false := by
  refine ⟨?_, by decide, by decide⟩
  simp [ControlKeyState.has_state, bne_iff_ne]

/-- C6 counterexample: contrary to the claim that every predicate other than
`left_button` is false for `ButtonState::from(0x0001)`, `scroll_up` is true
there, because the stored signed value 1 is positive. -/
theorem buttonState_one_scroll_up_counterexample :
    (ButtonState.ofU32 0x0001).scroll_up = true := by decide

/-- C6 amended: `ButtonState::from(0x0001).left_button()` is true;
`release_button`, `right_button`, `middle_button` and `scroll_down` are
false; `scroll_up` is true since the stored signed value is positive. -/
theorem buttonState_one_left_amended :
    (ButtonState.ofU32 0x0001).left_button = true ∧
      (ButtonState.ofU32 0x0001).release_button = false ∧
      (ButtonState.ofU32 0x0001).right_button = false ∧
      (ButtonState.ofU32 0x0001).middle_button = false ∧
      (ButtonState.ofU32 0x0001).scroll_down = false ∧
      (ButtonState.ofU32 0x0001).scroll_up = true := by decide

/-- C9: key-event decoding copies the key-down flag, repeat count, virtual
key code, virtual scan code and control-key bitmask verbatim, and reads the
character exclusively through the wide (UTF-16) union arm: the result always
equals the wide arm's full 16-bit value, and differs from the narrow arm
whenever the two arms disagree. -/
theorem keyEventRecord_from_winapi_fields (r : KEY_EVENT_RECORD) :
    (KeyEventRecord.from_winapi r).key_down = (r.bKeyDown != 0) ∧
      (KeyEventRecord.from_winapi r).repeat_count = r.wRepeatCount ∧
      (KeyEventRecord.from_winapi r).virtual_key_code = r.wVirtualKeyCode ∧
      (KeyEventRecord.from_winapi r).virtual_scan_code = r.wVirtualScanCode ∧
      (KeyEventRecord.from_winapi r).u_char = r.uChar.UnicodeChar ∧
      (KeyEventRecord.from_winapi r).control_key_state =
        ControlKeyState.mk r.dwControlKeyState ∧
      (256 ≤ r.uChar.bits →
        (KeyEventRecord.from_winapi r).u_char ≠ r.uChar.AsciiChar) := by
  refine ⟨rfl, rfl, rfl, rfl, rfl, rfl, ?_⟩
  intro h
  simp only [KeyEventRecord.from_winapi, UCharUnion.UnicodeChar,
    UCharUnion.AsciiChar]
  omega

/-- Witness for C9 at a record whose wide character is `0x0141` (so the two
union arms disagree). -/
theorem keyEventRecord_from_winapi_fields_witness :
    (256 ≤ (321 : Nat)) ∧
      (KeyEventRecord.from_winapi ⟨1, 1, 65, 30, ⟨321⟩, 16⟩).u_char ≠
        (UCharUnion.mk 321).AsciiChar :=
  ⟨by norm_num,
    (keyEventRecord_from_winapi_fields ⟨1, 1, 65, 30, ⟨321⟩, 16⟩).2.2.2.2.2.2
      (by norm_num)⟩

/-- C1: decoding a raw record with the window-buffer-size discriminant
returns the live queried terminal size, for every embedded raw payload size;
the embedded size never appears in the result. -/
theorem decode_windowBufferSize_uses_query (sz : Size) (rec : INPUT_RECORD)
    (h : rec.EventType = WINDOW_BUFFER_SIZE_EVENT) :
    InputRecord.decode (some sz) rec =
      .ok (.WindowBufferSizeEvent { size := { x := sz.width, y := sz.height } }) := by
  simp [InputRecord.decode, h, KEY_EVENT, MOUSE_EVENT,
    WINDOW_BUFFER_SIZE_EVENT, WindowBufferSizeRecord.fromRaw, Coord.fromRaw]

/-- Witness for C1: embedded size (80, 24), queried size (120, 40); the
decoded record carries (120, 40). -/
theorem decode_windowBufferSize_uses_query_witness :
    InputRecord.decode (some ⟨120, 40⟩)
        ⟨WINDOW_BUFFER_SIZE_EVENT,
          ⟨⟨0, 0, 0, 0, ⟨0⟩, 0⟩, ⟨⟨0, 0⟩, 0, 0, 0⟩, ⟨⟨80, 24⟩⟩, ⟨0⟩, ⟨0⟩⟩⟩ =
      .ok (.WindowBufferSizeEvent ⟨⟨120, 40⟩⟩) :=
  decode_windowBufferSize_uses_query ⟨120, 40⟩
    ⟨WINDOW_BUFFER_SIZE_EVENT,
      ⟨⟨0, 0, 0, 0, ⟨0⟩, 0⟩, ⟨⟨0, 0⟩, 0, 0, 0⟩, ⟨⟨80, 24⟩⟩, ⟨0⟩, ⟨0⟩⟩⟩ rfl

/-- C3: if the screen-buffer collaborator query fails, decoding a
window-buffer-size record fails with the fatal condition and returns no
record, in particular no zero-size record. -/
theorem decode_windowBufferSize_query_failure (rec : INPUT_RECORD)
    (h : rec.EventType = WINDOW_BUFFER_SIZE_EVENT) :
    InputRecord.decode none rec = .error .screenBufferQueryFailed := by
  simp [InputRecord.decode, h, KEY_EVENT, MOUSE_EVENT,
    WINDOW_BUFFER_SIZE_EVENT]

/-- Witness for C3 at a concrete window-buffer-size record with a failed
query. -/
theorem decode_windowBufferSize_query_failure_witness :
    InputRecord.decode none
        ⟨WINDOW_BUFFER_SIZE_EVENT,
          ⟨⟨0, 0, 0, 0, ⟨0⟩, 0⟩, ⟨⟨0, 0⟩, 0, 0, 0⟩, ⟨⟨80, 24⟩⟩, ⟨0⟩, ⟨0⟩⟩⟩ =
      .error .screenBufferQueryFailed :=
  decode_windowBufferSize_query_failure
    ⟨WINDOW_BUFFER_SIZE_EVENT,
      ⟨⟨0, 0, 0, 0, ⟨0⟩, 0⟩, ⟨⟨0, 0⟩, 0, 0, 0⟩, ⟨⟨80, 24⟩⟩, ⟨0⟩, ⟨0⟩⟩⟩ rfl

/-- C2: for every discriminant outside the five known event kinds, decoding
aborts with the fatal unrecognized-discriminant condition (the embedded
panic), for every query state and payload; no variant is returned. -/
theorem decode_unrecognized_discriminant (q : Option Size) (rec : INPUT_RECORD)
    (h1 : rec.EventType ≠ KEY_EVENT) (h2 : rec.EventType ≠ MOUSE_EVENT)
    (h3 : rec.EventType ≠ WINDOW_BUFFER_SIZE_EVENT)
    (h4 : rec.EventType ≠ FOCUS_EVENT) (h5 : rec.EventType ≠ MENU_EVENT) :
    InputRecord.decode q rec = .error (.unexpectedEventType rec.EventType) := by
  simp [InputRecord.decode, h1, h2, h3, h4, h5]

/-- Witness for C2 at discriminant 3 (not a known event kind). -/
theorem decode_unrecognized_discriminant_witness :
    ((3 : Nat) ≠ KEY_EVENT) ∧
      InputRecord.decode none
          ⟨3, ⟨⟨0, 0, 0, 0, ⟨0⟩, 0⟩, ⟨⟨0, 0⟩, 0, 0, 0⟩, ⟨⟨0, 0⟩⟩, ⟨0⟩, ⟨0⟩⟩⟩ =
        .error (.unexpectedEventType 3) :=
  ⟨by decide,
    decode_unrecognized_discriminant none
      ⟨3, ⟨⟨0, 0, 0, 0, ⟨0⟩, 0⟩, ⟨⟨0, 0⟩, 0, 0, 0⟩, ⟨⟨0, 0⟩⟩, ⟨0⟩, ⟨0⟩⟩⟩
      (by decide) (by decide) (by decide) (by decide) (by decide)⟩

/-- C10: the standalone leaf conversion `From<WINDOW_BUFFER_SIZE_RECORD>`
copies the embedded raw size verbatim; it is a pure function of the raw
record alone and performs no terminal-size collaborator query. -/
theorem windowBufferSizeRecord_fromRaw_verbatim (r : WINDOW_BUFFER_SIZE_RECORD) :
    (WindowBufferSizeRecord.fromRaw r).size.x = r.dwSize.X ∧
      (WindowBufferSizeRecord.fromRaw r).size.y = r.dwSize.Y :=
  ⟨rfl, rfl⟩

end CrosstermWinapi
